import Mathlib

/-!
Verification of the sgs-cli volume-copy core against its specification.

The Go sources embedded here:
  * `internal/cleanup/cleanup.go` — the process-wide LIFO cleanup registry
    (`Register`, `Unregister`, `RunAll`, `WasInterrupted`, `WaitForCleanup`).
  * `internal/volume/volume.go` — `Create`, `Copy`, `copySameNode`,
    `copyCrossNode`.

The embedding is shallow: the registry is a list of abstract cleanup
actions plus the `interrupted` flag and the `done` channel's presence;
Kubernetes side effects are recorded as an explicit event trace, and the
outcomes of external calls (API server answers, pod phases) are supplied
by an oracle environment structure, one field per call site. Within each
function the Go control flow — the order of checks, registrations,
unregistrations and API calls, including `defer`red statements — is
reproduced statement by statement.
-/

namespace SgsCli

/-! ## internal/cleanup/cleanup.go

Go state: `cleanups []CleanupFunc`, `interrupted bool`, `done chan struct{}`,
all guarded by one mutex.  Cleanup functions are modelled by an abstract
type `α` of action identifiers; `doneSet` models `done != nil`. -/

structure CleanupState (α : Type) where
  cleanups : List α
  interrupted : Bool
  doneSet : Bool
deriving Repr, DecidableEq

/-- Go `Register`: `cleanups = append(cleanups, fn)`. -/
def Register {α : Type} (s : CleanupState α) (fn : α) : CleanupState α :=
  { s with cleanups := s.cleanups ++ [fn] }

/-- Go `Unregister`: `if len(cleanups) > 0 { cleanups = cleanups[:len(cleanups)-1] }`. -/
def Unregister {α : Type} (s : CleanupState α) : CleanupState α :=
  if s.cleanups.length > 0 then
    { s with cleanups := s.cleanups.dropLast }
  else
    s

/-- Go `RunAll`: copies the slice, sets `cleanups = nil`, then invokes
`fns[i]` for `i = len-1 .. 0`.  Returns the invocation sequence (in call
order) together with the post state. -/
def RunAll {α : Type} (s : CleanupState α) : List α × CleanupState α :=
  (s.cleanups.reverse, { s with cleanups := [] })

/-- Go `WasInterrupted`: returns the `interrupted` flag. -/
def WasInterrupted {α : Type} (s : CleanupState α) : Bool :=
  s.interrupted

/-- Result of a call to `WaitForCleanup`: either the call returns at once,
or it blocks on the `done` channel until the interrupt-path cleanup closes
it. -/
inductive WaitResult where
  | immediate
  | blockUntilDone
deriving Repr, DecidableEq

/-- Go `WaitForCleanup`: `if !interrupted { return }; ch := done;
if ch != nil { <-ch }`. -/
def WaitForCleanup {α : Type} (s : CleanupState α) : WaitResult :=
  if !s.interrupted then
    .immediate
  else if s.doneSet then
    .blockUntilDone
  else
    .immediate

/-- The state mutation performed by the signal-handler goroutine in
`InterruptibleContext` upon receiving SIGINT/SIGTERM, before it calls
`RunAll`: `interrupted = true; done = make(chan struct{})`. -/
def interruptSignal {α : Type} (s : CleanupState α) : CleanupState α :=
  { s with interrupted := true, doneSet := true }

/-! ## Registry claims -/

/-! ## internal/volume/volume.go — data model

Error values (`error` in Go) are modelled as their message strings;
`fmt.Errorf("%s: %w", msg, err)` becomes string concatenation, so "returned
unchanged" is literal equality of the strings. -/

abbrev Err := String

/-- The fields of a persistent volume claim that the copy path reads.
`osImageAnnot` is `pvc.Annotations[sgs.AnnotationOSImage]`; a Go map lookup
of an absent key yields `""`, which is exactly how the code tests for the
annotation, so `""` means "no boot-image annotation". `size` is the storage
request rendered as a string. -/
structure PVC where
  size : String
  osImageAnnot : String
deriving Repr, DecidableEq

/-- The fields of `VolumeInfo` that `Copy` reads. -/
structure VolumeInfo where
  size : String
  image : String
  isOSVolume : Bool
deriving Repr, DecidableEq

/-- The part of `Get` that derives `VolumeInfo` from the fetched PVC:
`osImage := pvc.Annotations[sgs.AnnotationOSImage]; isOSVolume := osImage != ""`. -/
def GetInfo (pvc : PVC) : VolumeInfo :=
  { size := pvc.size, image := pvc.osImageAnnot, isOSVolume := pvc.osImageAnnot ≠ "" }

/-- Go `pvcName`: `nodeName + "-" + volumeName`. -/
def pvcName (nodeName volumeName : String) : String :=
  nodeName ++ "-" ++ volumeName

/-- Identities of the cleanup closures registered by the copy/create path:
each closure deletes one named object. -/
inductive CleanupAct where
  | pvc (name : String)
  | pod (name : String)
deriving Repr, DecidableEq

/-- Externally visible side effects performed against the cluster (and the
one registry-wait call the spec singles out), in program order. -/
inductive Event where
  | createPVC (name : String) (size : String) (osImageAnnot : String)
  | createPod (name : String)
  | deletePVC (name : String)
  | deletePod (name : String)
  | waitCleanup
deriving Repr, DecidableEq

/-- Outcome of one of the embedded volume operations: the returned error
(`none` = nil), the registry state on return, the cluster-effect trace, and
the registry contents snapshotted after each registry mutation taken while
the operation holds a registration (used to state stack-shape invariants). -/
structure OpResult where
  err : Option Err
  reg : CleanupState CleanupAct
  trace : List Event
  snaps : List (List CleanupAct)
deriving Repr, DecidableEq

/-- An early return taken before any resource was provisioned: error out,
registry untouched, no effects. -/
def earlyErr (reg : CleanupState CleanupAct) (e : Err) : OpResult :=
  { err := some e, reg := reg, trace := [], snaps := [] }

/-! ## Oracle environments

One Boolean / Option field per external call site, supplying the answer the
cluster would give there. -/

/-- Oracle for `copySameNode`: whether `Pods.Create` succeeds, and the
result of `waitForCopyPod` (`none` = pod succeeded). -/
structure SameNodeEnv where
  podCreateOK : Bool
  waitErr : Option Err
deriving Repr, DecidableEq

/-- Oracle for `copyCrossNode`: whether each `Pods.Create` succeeds, the
results of the two `waitForPodRunning` calls, and the first error received
from `errChan` during the tar-streaming phase (`none` = both streams ended
cleanly). -/
structure CrossNodeEnv where
  srcPodCreateOK : Bool
  dstPodCreateOK : Bool
  srcRunErr : Option Err
  dstRunErr : Option Err
  streamErr : Option Err
deriving Repr, DecidableEq

/-- Oracle for `Copy`: node-access validation, `Get` on the source (`none`
= not found), `GetSessionMode` on the source (`none` = the check itself
errored, `some m` = mode string, `""` meaning no active session), `Get` on
the destination (`dstExists` = it returned without error), whether the
destination `PersistentVolumeClaims.Create` succeeds, and whether the
best-effort failure-path `Delete` of the destination succeeds — the code
discards that result (`_ =`), which the theorems make visible by being
independent of it. -/
structure CopyEnv where
  nodeAccessOK : Bool
  srcPVC : Option PVC
  sessionMode : Option String
  dstExists : Bool
  dstCreateOK : Bool
  dstDeleteOK : Bool
  same : SameNodeEnv
  cross : CrossNodeEnv
deriving Repr, DecidableEq

/-- Go `CopyOptions`. -/
structure CopyOptions where
  srcNode : String
  srcVolume : String
  dstNode : String
  dstVolume : String
deriving Repr, DecidableEq

/-! ## copySameNode / copyCrossNode -/

/-- Go `copySameNode`: create the two-mount copy pod; register its cleanup;
`defer { Unregister; delete pod }`; return `waitForCopyPod`'s result. -/
def copySameNode (env : SameNodeEnv) (dstPVC : String)
    (reg : CleanupState CleanupAct) : OpResult :=
  let podName := "copy-" ++ dstPVC
  if env.podCreateOK = false then
    earlyErr reg "failed to create copy pod"
  else
    let reg1 := Register reg (.pod podName)
    let res := env.waitErr
    let reg2 := Unregister reg1
    { err := res, reg := reg2,
      trace := [.createPod podName, .deletePod podName],
      snaps := [reg1.cleanups, reg2.cleanups] }

/-- Go `copyCrossNode`: create the source pod, register + defer its
teardown; create the destination pod, register + defer its teardown; wait
for both pods to run; stream `tar cf -` into `tar xf -` through the
in-process pipe; the `defer`s then run in LIFO order (destination pod
first, source pod second). -/
def copyCrossNode (env : CrossNodeEnv) (srcPVC dstPVC : String)
    (reg : CleanupState CleanupAct) : OpResult :=
  let srcPodName := "copy-src-" ++ srcPVC
  let dstPodName := "copy-dst-" ++ dstPVC
  if env.srcPodCreateOK = false then
    earlyErr reg "failed to create source pod"
  else
    let reg1 := Register reg (.pod srcPodName)
    if env.dstPodCreateOK = false then
      -- only the source-pod defer runs
      let reg2 := Unregister reg1
      { err := some "failed to create destination pod", reg := reg2,
        trace := [.createPod srcPodName, .deletePod srcPodName],
        snaps := [reg1.cleanups, reg2.cleanups] }
    else
      let reg2 := Register reg1 (.pod dstPodName)
      let bodyErr : Option Err :=
        match env.srcRunErr with
        | some e => some ("source pod failed to start: " ++ e)
        | none =>
          match env.dstRunErr with
          | some e => some ("destination pod failed to start: " ++ e)
          | none =>
            match env.streamErr with
            | some e => some ("copy stream failed: " ++ e)
            | none => none
      -- defers, LIFO: unregister + delete dst pod, then unregister + delete src pod
      let reg3 := Unregister reg2
      let reg4 := Unregister reg3
      { err := bodyErr, reg := reg4,
        trace := [.createPod srcPodName, .createPod dstPodName,
                  .deletePod dstPodName, .deletePod srcPodName],
        snaps := [reg1.cleanups, reg2.cleanups, reg3.cleanups, reg4.cleanups] }

/-! ## Copy -/

/-- The node-equality dispatch inside `Copy`:
`if opts.SrcNode == opts.DstNode { copySameNode(...) } else { copyCrossNode(...) }`. -/
def copyDispatch (env : CopyEnv) (opts : CopyOptions)
    (reg : CleanupState CleanupAct) : OpResult :=
  if opts.srcNode = opts.dstNode then
    copySameNode env.same (pvcName opts.dstNode opts.dstVolume) reg
  else
    copyCrossNode env.cross (pvcName opts.srcNode opts.srcVolume)
      (pvcName opts.dstNode opts.dstVolume) reg

/-- The provisioning-and-copy body of Go `Copy`, from the destination PVC
creation onward (the statements after the validations have passed, with
`src` the fetched source volume): create the destination PVC with the
source's size and, when the source is an OS volume with a non-empty image,
its boot-image annotation; register the destination teardown; dispatch on
node equality; on sub-procedure failure either defer to the interrupt path
(`WasInterrupted` → `WaitForCleanup`, return nil) or unregister,
best-effort delete the destination and return the original error; on
success unregister and keep the destination. -/
def copyMain (env : CopyEnv) (opts : CopyOptions)
    (reg : CleanupState CleanupAct) (src : PVC) : OpResult :=
  let srcInfo := GetInfo src
  let dstPVCName := pvcName opts.dstNode opts.dstVolume
  let annot := if srcInfo.isOSVolume ∧ srcInfo.image ≠ "" then srcInfo.image else ""
  if env.dstCreateOK = false then
    earlyErr reg "failed to create destination volume"
  else
    let ev0 := [Event.createPVC dstPVCName srcInfo.size annot]
    let reg1 := Register reg (.pvc dstPVCName)
    let sub := copyDispatch env opts reg1
    match sub.err with
    | some e =>
      if WasInterrupted sub.reg then
        { err := none, reg := sub.reg,
          trace := ev0 ++ sub.trace ++ [.waitCleanup],
          snaps := reg1.cleanups :: sub.snaps }
      else
        { err := some e, reg := Unregister sub.reg,
          trace := ev0 ++ sub.trace ++ [.deletePVC dstPVCName],
          snaps := reg1.cleanups :: sub.snaps }
    | none =>
      { err := none, reg := Unregister sub.reg,
        trace := ev0 ++ sub.trace,
        snaps := reg1.cleanups :: sub.snaps }

/-- Go `Copy`: validate node access; `Get` the source; `GetSessionMode` and
reject an active session; reject an existing destination; then run the
provisioning-and-copy body `copyMain`. -/
def Copy (env : CopyEnv) (opts : CopyOptions)
    (reg : CleanupState CleanupAct) : OpResult :=
  if env.nodeAccessOK = false then
    earlyErr reg ("workspace cannot access node " ++ opts.dstNode)
  else
    match env.srcPVC with
    | none =>
      earlyErr reg ("source volume " ++ opts.srcNode ++ "/" ++ opts.srcVolume
        ++ " not found")
    | some src =>
      match env.sessionMode with
      | none => earlyErr reg "failed to check source session"
      | some srcMode =>
        if srcMode ≠ "" then
          earlyErr reg ("source volume " ++ opts.srcNode ++ "/" ++ opts.srcVolume
            ++ " has an active session, please delete it first")
        else if env.dstExists then
          earlyErr reg ("destination volume " ++ opts.dstNode ++ "/"
            ++ opts.dstVolume ++ " already exists")
        else
          copyMain env opts reg src

/-! ## Create -/

/-- Default storage size from `internal/sgs/constants.go`. -/
def DefaultStorageSize : String := "10Gi"

/-- Go `CreateOptions` (`image = ""` means a plain data volume). -/
structure CreateOptions where
  nodeName : String
  volumeName : String
  size : String
  image : String
deriving Repr, DecidableEq

/-- Oracle for `Create`: node-access validation, whether the PVC create
succeeds, whether the binder-pod create succeeds, and `waitForBinderPod`'s
result. -/
structure CreateEnv where
  nodeAccessOK : Bool
  pvcCreateOK : Bool
  binderPodCreateOK : Bool
  binderWaitErr : Option Err
deriving Repr, DecidableEq

/-- Go `Create`: validate node access; default the size; create the PVC
(with the boot-image annotation when `image` is set); for a plain volume
return nil at once; for an OS volume register the PVC teardown, create the
binder pod (`bind-<pvc>`), register its teardown, wait for it, and on every
non-interrupted exit pop every entry this call registered. -/
def Create (env : CreateEnv) (opts : CreateOptions)
    (reg : CleanupState CleanupAct) : OpResult :=
  if env.nodeAccessOK = false then
    earlyErr reg ("workspace cannot access node " ++ opts.nodeName)
  else
    let name := pvcName opts.nodeName opts.volumeName
    let size := if opts.size = "" then DefaultStorageSize else opts.size
    let annot := if opts.image ≠ "" then opts.image else ""
    if env.pvcCreateOK = false then
      earlyErr reg "failed to create volume"
    else
      let ev0 := [Event.createPVC name size annot]
      if opts.image = "" then
        { err := none, reg := reg, trace := ev0, snaps := [] }
      else
        let reg1 := Register reg (.pvc name)
        let podName := "bind-" ++ name
        if env.binderPodCreateOK = false then
          let reg2 := Unregister reg1
          { err := some "failed to create volume binding", reg := reg2,
            trace := ev0 ++ [.deletePVC name],
            snaps := [reg1.cleanups, reg2.cleanups] }
        else
          let reg2 := Register reg1 (.pod podName)
          match env.binderWaitErr with
          | some e =>
            if WasInterrupted reg2 then
              { err := none, reg := reg2,
                trace := ev0 ++ [.createPod podName, .waitCleanup],
                snaps := [reg1.cleanups, reg2.cleanups] }
            else
              let reg3 := Unregister reg2
              let reg4 := Unregister reg3
              { err := some ("volume binding failed: " ++ e), reg := reg4,
                trace := ev0 ++ [.createPod podName, .deletePod podName,
                  .deletePVC name],
                snaps := [reg1.cleanups, reg2.cleanups, reg3.cleanups,
                  reg4.cleanups] }
          | none =>
            let reg3 := Unregister reg2
            let reg4 := Unregister reg3
            { err := none, reg := reg4,
              trace := ev0 ++ [.createPod podName, .deletePod podName],
              snaps := [reg1.cleanups, reg2.cleanups, reg3.cleanups,
                reg4.cleanups] }

/-- **C1.** `RunAll` invokes every currently registered action exactly once
(the multiset of invocations equals the multiset of registered entries), in
reverse registration order; the registry is empty on return, and a second
`RunAll` with no intervening `Register` invokes nothing.  The final
conjunct is the spec's concrete scenario 5: three registrations followed by
`RunAll` fire in exact reverse order. -/
theorem runAll_lifo_once_and_clears {α : Type} [DecidableEq α]
    (s : CleanupState α) (a b c : α) :
    (RunAll s).1 = s.cleanups.reverse ∧
    (∀ x : α, ((RunAll s).1).count x = s.cleanups.count x) ∧
    (RunAll s).2.cleanups = [] ∧
    (RunAll (RunAll s).2).1 = [] ∧
    (RunAll (Register (Register (Register s a) b) c)).1
      = c :: b :: a :: s.cleanups.reverse := by
  refine ⟨rfl, ?_, rfl, rfl, ?_⟩
  · intro x
    simp [RunAll]
  · simp [RunAll, Register]

/-- **C9.** `Unregister` on an empty registry is a total no-op (no failure,
registry stays empty and the whole state is unchanged); in general it
removes exactly the most recently registered entry, so `Register`
immediately followed by `Unregister` restores the prior state. -/
theorem unregister_pops_last {α : Type} (s : CleanupState α) (fn : α) :
    (s.cleanups = [] → Unregister s = s) ∧
    Unregister (Register s fn) = s ∧
    (Unregister s).cleanups = s.cleanups.dropLast := by
  refine ⟨?_, ?_, ?_⟩
  · intro h
    simp [Unregister, h]
  · simp [Unregister, Register]
  · by_cases h : s.cleanups.length > 0
    · simp [Unregister, h]
    · simp only [Nat.pos_iff_ne_zero, ne_eq, not_not, List.length_eq_zero] at h
      simp [Unregister, h]

/-- Witness for C9 at a concrete state: the empty registry, action `0`. -/
theorem unregister_pops_last_witness :
    ((CleanupState.mk ([] : List ℕ) false false).cleanups = [] →
      Unregister (CleanupState.mk ([] : List ℕ) false false)
        = CleanupState.mk ([] : List ℕ) false false) ∧
    Unregister (Register (CleanupState.mk ([] : List ℕ) false false) 0)
      = CleanupState.mk ([] : List ℕ) false false ∧
    (Unregister (CleanupState.mk ([] : List ℕ) false false)).cleanups
      = (CleanupState.mk ([] : List ℕ) false false).cleanups.dropLast :=
  unregister_pops_last (CleanupState.mk ([] : List ℕ) false false) 0

/-- **C10.** `WaitForCleanup` returns immediately whenever the interrupted
flag is unset; it can only block after an interrupt has set the flag; and
after the interrupt path has run (`interruptSignal`: flag set, `done`
channel created) it blocks until that channel is closed by the
interrupt-path cleanup. -/
theorem waitForCleanup_blocks_only_interrupted {α : Type}
    (s : CleanupState α) :
    (s.interrupted = false → WaitForCleanup s = .immediate) ∧
    (WaitForCleanup s = .blockUntilDone → s.interrupted = true) ∧
    WaitForCleanup (interruptSignal s) = .blockUntilDone := by
  refine ⟨?_, ?_, ?_⟩
  · intro h
    simp [WaitForCleanup, h]
  · intro h
    by_contra hc
    simp only [Bool.not_eq_true] at hc
    simp [WaitForCleanup, hc] at h
  · simp [WaitForCleanup, interruptSignal]

/-- Witness for C10 at a concrete state: fresh (non-interrupted) registry. -/
theorem waitForCleanup_blocks_only_interrupted_witness :
    ((CleanupState.mk ([] : List ℕ) false false).interrupted = false →
      WaitForCleanup (CleanupState.mk ([] : List ℕ) false false) = .immediate) ∧
    (WaitForCleanup (CleanupState.mk ([] : List ℕ) false false) = .blockUntilDone →
      (CleanupState.mk ([] : List ℕ) false false).interrupted = true) ∧
    WaitForCleanup (interruptSignal (CleanupState.mk ([] : List ℕ) false false))
      = .blockUntilDone :=
  waitForCleanup_blocks_only_interrupted (CleanupState.mk ([] : List ℕ) false false)

/-! ## Helper lemmas about the copy sub-procedures -/

/-- Popping a freshly pushed entry restores the whole state. -/
theorem unregister_register_eq {α : Type} (s : CleanupState α) (fn : α) :
    Unregister (Register s fn) = s := by
  simp [Unregister, Register]

/-- `copySameNode` returns the registry exactly as it received it: each of
its registrations is matched by a deferred unregistration. -/
theorem copySameNode_reg_restored (env : SameNodeEnv) (d : String)
    (reg : CleanupState CleanupAct) : (copySameNode env d reg).reg = reg := by
  by_cases h : env.podCreateOK = false <;>
    simp [copySameNode, earlyErr, h, unregister_register_eq]

/-- `copyCrossNode` returns the registry exactly as it received it. -/
theorem copyCrossNode_reg_restored (env : CrossNodeEnv) (sp d : String)
    (reg : CleanupState CleanupAct) : (copyCrossNode env sp d reg).reg = reg := by
  by_cases h1 : env.srcPodCreateOK = false
  · simp [copyCrossNode, earlyErr, h1]
  · by_cases h2 : env.dstPodCreateOK = false <;>
      simp [copyCrossNode, earlyErr, h1, h2, unregister_register_eq]

/-- The dispatch returns the registry exactly as it received it. -/
theorem copyDispatch_reg_restored (env : CopyEnv) (opts : CopyOptions)
    (reg : CleanupState CleanupAct) : (copyDispatch env opts reg).reg = reg := by
  by_cases h : opts.srcNode = opts.dstNode <;>
    simp [copyDispatch, h, copySameNode_reg_restored, copyCrossNode_reg_restored]

/-- Events touching a persistent volume claim (as opposed to helper pods or
the registry wait). -/
def volumeEvent : Event → Bool
  | .createPVC _ _ _ => true
  | .deletePVC _ => true
  | _ => false

/-- `copySameNode` only ever creates and deletes helper pods. -/
theorem copySameNode_trace_pods (env : SameNodeEnv) (d : String)
    (reg : CleanupState CleanupAct) :
    ∀ e ∈ (copySameNode env d reg).trace, volumeEvent e = false := by
  by_cases h : env.podCreateOK = false <;>
    simp [copySameNode, earlyErr, h, volumeEvent]

/-- `copyCrossNode` only ever creates and deletes helper pods. -/
theorem copyCrossNode_trace_pods (env : CrossNodeEnv) (sp d : String)
    (reg : CleanupState CleanupAct) :
    ∀ e ∈ (copyCrossNode env sp d reg).trace, volumeEvent e = false := by
  by_cases h1 : env.srcPodCreateOK = false
  · simp [copyCrossNode, earlyErr, h1]
  · by_cases h2 : env.dstPodCreateOK = false <;>
      simp [copyCrossNode, earlyErr, h1, h2, volumeEvent]

/-- The dispatch only ever creates and deletes helper pods. -/
theorem copyDispatch_trace_pods (env : CopyEnv) (opts : CopyOptions)
    (reg : CleanupState CleanupAct) :
    ∀ e ∈ (copyDispatch env opts reg).trace, volumeEvent e = false := by
  by_cases h : opts.srcNode = opts.dstNode <;>
    simp only [copyDispatch, h, if_true, if_false, ite_true, ite_false] <;>
    first
      | exact copySameNode_trace_pods _ _ _
      | exact copyCrossNode_trace_pods _ _ _ _

/-- Every registry snapshot taken inside `copySameNode` is the inherited
registry with only helper-pod teardowns stacked on top. -/
theorem copySameNode_snaps_shape (env : SameNodeEnv) (d : String)
    (reg : CleanupState CleanupAct) :
    ∀ s ∈ (copySameNode env d reg).snaps, ∃ pods : List String,
      s = reg.cleanups ++ pods.map CleanupAct.pod := by
  by_cases h : env.podCreateOK = false
  · simp [copySameNode, earlyErr, h]
  · simp [copySameNode, h, Register, Unregister]
    exact ⟨["copy-" ++ d], rfl⟩

/-- Every registry snapshot taken inside `copyCrossNode` is the inherited
registry with only helper-pod teardowns stacked on top. -/
theorem copyCrossNode_snaps_shape (env : CrossNodeEnv) (sp d : String)
    (reg : CleanupState CleanupAct) :
    ∀ s ∈ (copyCrossNode env sp d reg).snaps, ∃ pods : List String,
      s = reg.cleanups ++ pods.map CleanupAct.pod := by
  by_cases h1 : env.srcPodCreateOK = false
  · simp [copyCrossNode, earlyErr, h1]
  · by_cases h2 : env.dstPodCreateOK = false
    · simp [copyCrossNode, h1, h2, Register, Unregister]
      exact ⟨["copy-src-" ++ sp], rfl⟩
    · simp [copyCrossNode, h1, h2, Register, Unregister]
      exact ⟨⟨["copy-src-" ++ sp], rfl⟩,
        ⟨["copy-src-" ++ sp, "copy-dst-" ++ d], rfl⟩,
        ⟨["copy-src-" ++ sp], rfl⟩⟩

/-- Dispatch version of the snapshot-shape lemma. -/
theorem copyDispatch_snaps_shape (env : CopyEnv) (opts : CopyOptions)
    (reg : CleanupState CleanupAct) :
    ∀ s ∈ (copyDispatch env opts reg).snaps, ∃ pods : List String,
      s = reg.cleanups ++ pods.map CleanupAct.pod := by
  by_cases h : opts.srcNode = opts.dstNode <;>
    simp only [copyDispatch, h, if_true, if_false, ite_true, ite_false] <;>
    first
      | exact copySameNode_snaps_shape _ _ _
      | exact copyCrossNode_snaps_shape _ _ _ _

/-! ## Copy claims -/

/-- **C2.** Whenever the destination volume already exists or the source
volume has an active session, `Copy` returns an error having taken the
early-return path: no storage object or helper pod was created (empty
effect trace), and the registry is untouched (never even transiently
extended — no snapshot was taken). -/
theorem copy_precheck_failure_no_provision (env : CopyEnv) (opts : CopyOptions)
    (reg : CleanupState CleanupAct)
    (h : env.dstExists = true ∨ ∃ m, env.sessionMode = some m ∧ m ≠ "") :
    ∃ e, Copy env opts reg = earlyErr reg e := by
  unfold Copy
  by_cases h1 : env.nodeAccessOK = false
  · rw [if_pos h1]
    exact ⟨_, rfl⟩
  · rw [if_neg h1]
    cases hsrc : env.srcPVC with
    | none => exact ⟨_, rfl⟩
    | some src =>
      cases hmode : env.sessionMode with
      | none => exact ⟨_, rfl⟩
      | some m =>
        simp only
        by_cases hm : m ≠ ""
        · rw [if_pos hm]
          exact ⟨_, rfl⟩
        · rw [if_neg hm]
          have hd : env.dstExists = true := by
            rcases h with hd | ⟨m', hm', hne⟩
            · exact hd
            · rw [hmode] at hm'
              cases hm'
              exact absurd hne hm
          rw [hd]
          simp only [ite_true, if_pos]
          exact ⟨_, rfl⟩

/-- Witness for C2: destination already exists; all other answers benign. -/
theorem copy_precheck_failure_no_provision_witness :
    ∃ e, Copy
      (CopyEnv.mk true (some (PVC.mk "10Gi" "")) (some "") true true true
        (SameNodeEnv.mk true none)
        (CrossNodeEnv.mk true true none none none))
      (CopyOptions.mk "ferrari" "data-a" "ferrari" "data-b")
      (CleanupState.mk [] false false)
      = earlyErr (CleanupState.mk [] false false) e :=
  copy_precheck_failure_no_provision _ _ _ (Or.inl rfl)

/-- The tar-streaming sub-procedures leave no PVC-touching event in their
trace, so their filtered volume-event trace is empty. -/
theorem copyDispatch_trace_filter (env : CopyEnv) (opts : CopyOptions)
    (reg : CleanupState CleanupAct) :
    ((copyDispatch env opts reg).trace).filter volumeEvent = [] := by
  rw [List.filter_eq_nil_iff]
  intro a ha
  simp [copyDispatch_trace_pods env opts reg a ha]

/-- `Get` reports the PVC's storage request verbatim as the size. -/
theorem GetInfo_size (src : PVC) : (GetInfo src).size = src.size := rfl

/-- The boot-image annotation `Copy` writes on the destination equals the
source PVC's annotation verbatim (`""` meaning absent on both sides). -/
theorem copy_annot_eq (src : PVC) :
    (if (GetInfo src).isOSVolume = true ∧ (GetInfo src).image ≠ "" then
      (GetInfo src).image else "") = src.osImageAnnot := by
  by_cases h : src.osImageAnnot = "" <;> simp [GetInfo, h]

/-- **C3.** When the dispatched copy procedure fails and no interrupt has
occurred, `Copy` unregisters the destination volume's cleanup entry
(restoring the registry it was given), appends a best-effort delete of the
destination volume as its final action, and returns the sub-procedure's
error verbatim; the discarded result of the best-effort delete
(`dstDeleteOK`) cannot influence anything. -/
theorem copy_ordinary_failure_deletes_dst (env : CopyEnv) (opts : CopyOptions)
    (reg : CleanupState CleanupAct) (src : PVC)
    (hacc : env.nodeAccessOK = true) (hsrc : env.srcPVC = some src)
    (hmode : env.sessionMode = some "") (hdst : env.dstExists = false)
    (hcreate : env.dstCreateOK = true) (hint : reg.interrupted = false)
    (e : Err)
    (hsub : (copyDispatch env opts
        (Register reg (.pvc (pvcName opts.dstNode opts.dstVolume)))).err = some e) :
    (Copy env opts reg).err = some e ∧
    (Copy env opts reg).reg = reg ∧
    (∃ tr, (Copy env opts reg).trace
        = tr ++ [.deletePVC (pvcName opts.dstNode opts.dstVolume)]) ∧
    (∀ b, Copy { env with dstDeleteOK := b } opts reg = Copy env opts reg) := by
  have hreg : (copyDispatch env opts
      (Register reg (.pvc (pvcName opts.dstNode opts.dstVolume)))).reg
      = Register reg (.pvc (pvcName opts.dstNode opts.dstVolume)) :=
    copyDispatch_reg_restored _ _ _
  have hWI : WasInterrupted
      (Register reg (CleanupAct.pvc (pvcName opts.dstNode opts.dstVolume))) = false := by
    simp [WasInterrupted, Register, hint]
  refine ⟨?_, ?_, ?_, fun b => rfl⟩
  · simp [Copy, copyMain, hacc, hsrc, hmode, hdst, hcreate, hsub, hreg, hWI]
  · simp [Copy, copyMain, hacc, hsrc, hmode, hdst, hcreate, hsub, hreg, hWI,
      unregister_register_eq]
  · refine ⟨Event.createPVC (pvcName opts.dstNode opts.dstVolume)
      (GetInfo src).size (if (GetInfo src).isOSVolume = true ∧ (GetInfo src).image ≠ ""
        then (GetInfo src).image else "")
      :: (copyDispatch env opts
        (Register reg (.pvc (pvcName opts.dstNode opts.dstVolume)))).trace, ?_⟩
    simp [Copy, copyMain, hacc, hsrc, hmode, hdst, hcreate, hsub, hreg, hWI]

/-- Witness for C3: same-node copy whose helper pod fails, no interrupt. -/
theorem copy_ordinary_failure_deletes_dst_witness :
    (Copy
      (CopyEnv.mk true (some (PVC.mk "10Gi" "")) (some "") false true true
        (SameNodeEnv.mk true (some "copy pod failed"))
        (CrossNodeEnv.mk true true none none none))
      (CopyOptions.mk "ferrari" "data-a" "ferrari" "data-b")
      (CleanupState.mk [] false false)).err = some "copy pod failed" ∧
    (Copy
      (CopyEnv.mk true (some (PVC.mk "10Gi" "")) (some "") false true true
        (SameNodeEnv.mk true (some "copy pod failed"))
        (CrossNodeEnv.mk true true none none none))
      (CopyOptions.mk "ferrari" "data-a" "ferrari" "data-b")
      (CleanupState.mk [] false false)).reg = CleanupState.mk [] false false ∧
    (∃ tr, (Copy
      (CopyEnv.mk true (some (PVC.mk "10Gi" "")) (some "") false true true
        (SameNodeEnv.mk true (some "copy pod failed"))
        (CrossNodeEnv.mk true true none none none))
      (CopyOptions.mk "ferrari" "data-a" "ferrari" "data-b")
      (CleanupState.mk [] false false)).trace
        = tr ++ [.deletePVC (pvcName "ferrari" "data-b")]) ∧
    (∀ b, Copy { CopyEnv.mk true (some (PVC.mk "10Gi" "")) (some "") false true true
        (SameNodeEnv.mk true (some "copy pod failed"))
        (CrossNodeEnv.mk true true none none none) with dstDeleteOK := b }
      (CopyOptions.mk "ferrari" "data-a" "ferrari" "data-b")
      (CleanupState.mk [] false false)
      = Copy
      (CopyEnv.mk true (some (PVC.mk "10Gi" "")) (some "") false true true
        (SameNodeEnv.mk true (some "copy pod failed"))
        (CrossNodeEnv.mk true true none none none))
      (CopyOptions.mk "ferrari" "data-a" "ferrari" "data-b")
      (CleanupState.mk [] false false)) :=
  copy_ordinary_failure_deletes_dst _ _ _ _ rfl rfl rfl rfl rfl rfl
    "copy pod failed" (by decide)

/-- **C4.** When the dispatched copy procedure fails and the interrupted
flag is set, `Copy` calls `WaitForCleanup` (final trace event), returns nil,
deletes no volume of its own (no PVC-delete event anywhere in its trace)
and performs no unregistration of its own (the destination entry it pushed
is still on the registry it returns). -/
theorem copy_interrupted_failure_quiet (env : CopyEnv) (opts : CopyOptions)
    (reg : CleanupState CleanupAct) (src : PVC)
    (hacc : env.nodeAccessOK = true) (hsrc : env.srcPVC = some src)
    (hmode : env.sessionMode = some "") (hdst : env.dstExists = false)
    (hcreate : env.dstCreateOK = true) (hint : reg.interrupted = true)
    (e : Err)
    (hsub : (copyDispatch env opts
        (Register reg (.pvc (pvcName opts.dstNode opts.dstVolume)))).err = some e) :
    (Copy env opts reg).err = none ∧
    (Copy env opts reg).reg
      = Register reg (.pvc (pvcName opts.dstNode opts.dstVolume)) ∧
    (∃ tr, (Copy env opts reg).trace = tr ++ [.waitCleanup]) ∧
    (∀ n, Event.deletePVC n ∉ (Copy env opts reg).trace) := by
  have hreg : (copyDispatch env opts
      (Register reg (.pvc (pvcName opts.dstNode opts.dstVolume)))).reg
      = Register reg (.pvc (pvcName opts.dstNode opts.dstVolume)) :=
    copyDispatch_reg_restored _ _ _
  have hWI : WasInterrupted
      (Register reg (CleanupAct.pvc (pvcName opts.dstNode opts.dstVolume))) = true := by
    simp [WasInterrupted, Register, hint]
  refine ⟨?_, ?_, ?_, ?_⟩
  · simp [Copy, copyMain, hacc, hsrc, hmode, hdst, hcreate, hsub, hreg, hWI]
  · simp [Copy, copyMain, hacc, hsrc, hmode, hdst, hcreate, hsub, hreg, hWI]
  · refine ⟨Event.createPVC (pvcName opts.dstNode opts.dstVolume)
      (GetInfo src).size (if (GetInfo src).isOSVolume = true ∧ (GetInfo src).image ≠ ""
        then (GetInfo src).image else "")
      :: (copyDispatch env opts
        (Register reg (.pvc (pvcName opts.dstNode opts.dstVolume)))).trace, ?_⟩
    simp [Copy, copyMain, hacc, hsrc, hmode, hdst, hcreate, hsub, hreg, hWI]
  · have htr : (Copy env opts reg).trace
        = Event.createPVC (pvcName opts.dstNode opts.dstVolume) (GetInfo src).size
            (if (GetInfo src).isOSVolume = true ∧ (GetInfo src).image ≠ ""
              then (GetInfo src).image else "")
          :: ((copyDispatch env opts
                (Register reg (.pvc (pvcName opts.dstNode opts.dstVolume)))).trace
              ++ [Event.waitCleanup]) := by
      simp [Copy, copyMain, hacc, hsrc, hmode, hdst, hcreate, hsub, hreg, hWI]
    intro n
    rw [htr]
    intro hn
    simp only [List.mem_cons, List.mem_append, List.mem_singleton,
      List.not_mem_nil, or_false] at hn
    rcases hn with hn | hn | hn
    · exact Event.noConfusion hn
    · have := copyDispatch_trace_pods env opts
        (Register reg (.pvc (pvcName opts.dstNode opts.dstVolume))) _ hn
      simp [volumeEvent] at this
    · exact Event.noConfusion hn

/-- Witness for C4: same-node copy whose helper pod fails after an
interrupt was flagged. -/
theorem copy_interrupted_failure_quiet_witness :
    (Copy
      (CopyEnv.mk true (some (PVC.mk "10Gi" "")) (some "") false true true
        (SameNodeEnv.mk true (some "context canceled"))
        (CrossNodeEnv.mk true true none none none))
      (CopyOptions.mk "ferrari" "data-a" "ferrari" "data-b")
      (CleanupState.mk [] true true)).err = none ∧
    (Copy
      (CopyEnv.mk true (some (PVC.mk "10Gi" "")) (some "") false true true
        (SameNodeEnv.mk true (some "context canceled"))
        (CrossNodeEnv.mk true true none none none))
      (CopyOptions.mk "ferrari" "data-a" "ferrari" "data-b")
      (CleanupState.mk [] true true)).reg
      = Register (CleanupState.mk [] true true)
          (.pvc (pvcName "ferrari" "data-b")) ∧
    (∃ tr, (Copy
      (CopyEnv.mk true (some (PVC.mk "10Gi" "")) (some "") false true true
        (SameNodeEnv.mk true (some "context canceled"))
        (CrossNodeEnv.mk true true none none none))
      (CopyOptions.mk "ferrari" "data-a" "ferrari" "data-b")
      (CleanupState.mk [] true true)).trace = tr ++ [.waitCleanup]) ∧
    (∀ n, Event.deletePVC n ∉ (Copy
      (CopyEnv.mk true (some (PVC.mk "10Gi" "")) (some "") false true true
        (SameNodeEnv.mk true (some "context canceled"))
        (CrossNodeEnv.mk true true none none none))
      (CopyOptions.mk "ferrari" "data-a" "ferrari" "data-b")
      (CleanupState.mk [] true true)).trace) :=
  copy_interrupted_failure_quiet _ _ _ _ rfl rfl rfl rfl rfl rfl
    "context canceled" (by decide)

/-- **C6.** Every error-free `Copy` run performs exactly one PVC-touching
cluster operation: the creation of the destination PVC, whose storage
request is the source volume's size as read at invocation and whose
boot-image annotation equals the source's annotation verbatim — present
(non-empty) on the destination if and only if present on the source, with
the same value. -/
theorem copy_success_clones_metadata (env : CopyEnv) (opts : CopyOptions)
    (reg : CleanupState CleanupAct) (src : PVC)
    (hsrc : env.srcPVC = some src)
    (hok : (Copy env opts reg).err = none) :
    ((Copy env opts reg).trace.filter volumeEvent)
      = [Event.createPVC (pvcName opts.dstNode opts.dstVolume)
          src.size src.osImageAnnot] := by
  by_cases hacc : env.nodeAccessOK = false
  · simp [Copy, hacc, earlyErr] at hok
  · rw [Bool.not_eq_false] at hacc
    cases hmode : env.sessionMode with
    | none => simp [Copy, hacc, hsrc, hmode, earlyErr] at hok
    | some m =>
      by_cases hm : m ≠ ""
      · simp [Copy, hacc, hsrc, hmode, hm, earlyErr] at hok
      · rw [not_not] at hm
        subst hm
        by_cases hdst : env.dstExists = true
        · simp [Copy, hacc, hsrc, hmode, hdst, earlyErr] at hok
        · rw [Bool.not_eq_true] at hdst
          by_cases hcreate : env.dstCreateOK = false
          · simp [Copy, copyMain, hacc, hsrc, hmode, hdst, hcreate, earlyErr] at hok
          · rw [Bool.not_eq_false] at hcreate
            cases hsub : (copyDispatch env opts
                (Register reg (.pvc (pvcName opts.dstNode opts.dstVolume)))).err with
            | none =>
              simp [Copy, copyMain, hacc, hsrc, hmode, hdst, hcreate, hsub,
                List.filter_append, copyDispatch_trace_filter, volumeEvent,
                copy_annot_eq, GetInfo_size]
            | some e =>
              have hreg : (copyDispatch env opts
                  (Register reg (.pvc (pvcName opts.dstNode opts.dstVolume)))).reg
                  = Register reg (.pvc (pvcName opts.dstNode opts.dstVolume)) :=
                copyDispatch_reg_restored _ _ _
              cases hWI : WasInterrupted
                  (Register reg (CleanupAct.pvc (pvcName opts.dstNode opts.dstVolume))) with
              | false =>
                simp [Copy, copyMain, hacc, hsrc, hmode, hdst, hcreate, hsub, hreg, hWI] at hok
              | true =>
                simp [Copy, copyMain, hacc, hsrc, hmode, hdst, hcreate, hsub, hreg, hWI,
                  List.filter_append, copyDispatch_trace_filter, volumeEvent,
                  copy_annot_eq, GetInfo_size]

/-- Witness for C6: successful cross-node copy of an OS volume. -/
theorem copy_success_clones_metadata_witness :
    ((Copy
      (CopyEnv.mk true (some (PVC.mk "20Gi" "nvcr.io/nvidia/cuda")) (some "")
        false true true
        (SameNodeEnv.mk true none)
        (CrossNodeEnv.mk true true none none none))
      (CopyOptions.mk "ferrari" "os-volume" "porsche" "os-volume-copy")
      (CleanupState.mk [] false false)).trace.filter volumeEvent)
      = [Event.createPVC (pvcName "porsche" "os-volume-copy")
          "20Gi" "nvcr.io/nvidia/cuda"] :=
  copy_success_clones_metadata _ _ _ _ rfl (by decide)

/-! ## C5 machinery: every reachable registry state keeps the destination
entry below all helper-pod entries -/

/-- `Copy` either takes an early validation return (registry and trace
untouched) or runs the provisioning body on the fetched source volume. -/
theorem Copy_cases (env : CopyEnv) (opts : CopyOptions)
    (reg : CleanupState CleanupAct) :
    (∃ e, Copy env opts reg = earlyErr reg e) ∨
    (∃ src, env.srcPVC = some src ∧
      Copy env opts reg = copyMain env opts reg src) := by
  unfold Copy
  by_cases h1 : env.nodeAccessOK = false
  · rw [if_pos h1]
    exact Or.inl ⟨_, rfl⟩
  · rw [if_neg h1]
    cases hsrc : env.srcPVC with
    | none => exact Or.inl ⟨_, rfl⟩
    | some src =>
      cases hmode : env.sessionMode with
      | none => exact Or.inl ⟨_, rfl⟩
      | some m =>
        simp only
        by_cases hm : m ≠ ""
        · rw [if_pos hm]
          exact Or.inl ⟨_, rfl⟩
        · rw [if_neg hm]
          by_cases hd : env.dstExists
          · rw [hd]
            simp only [ite_true]
            exact Or.inl ⟨_, rfl⟩
          · rw [Bool.not_eq_true] at hd
            rw [hd]
            simp only [Bool.false_eq_true, ite_false]
            exact Or.inr ⟨src, rfl, rfl⟩

/-- An element at a split point belongs to the list. -/
theorem mem_of_split {α : Type} {l pre post : List α} {x : α}
    (h : l = pre ++ x :: post) : x ∈ l := by
  subst h
  simp

/-- If the only occurrence of `x` is the final element, any split of the
list at an `x` has nothing after it. -/
theorem append_last_split_post_nil {α : Type} {A : List α} {x : α} :
    ∀ {pre post : List α}, x ∉ A → A ++ [x] = pre ++ x :: post → post = [] := by
  induction A with
  | nil =>
    intro pre post _ h
    cases pre with
    | nil => simpa using h
    | cons b pre' =>
      simp only [List.nil_append, List.cons_append, List.cons.injEq] at h
      exact absurd h.2 (by simp)
  | cons a A' ih =>
    intro pre post hx h
    simp only [List.mem_cons, not_or] at hx
    cases pre with
    | nil =>
      simp only [List.cons_append, List.nil_append, List.cons.injEq] at h
      exact absurd h.1.symm hx.1
    | cons b pre' =>
      simp only [List.cons_append, List.cons.injEq] at h
      exact ih hx.2 h.2

/-- A split-at-`x` variant for a trace of the form `e0 :: (S ++ [x])` with
`x` occurring nowhere earlier. -/
theorem cons_append_last_split {α : Type} {e0 x : α} {S pre post : List α}
    (he : e0 ≠ x) (hS : x ∉ S)
    (h : e0 :: (S ++ [x]) = pre ++ x :: post) : post = [] := by
  cases pre with
  | nil =>
    simp only [List.nil_append, List.cons.injEq] at h
    exact absurd h.1 he
  | cons b pre' =>
    simp only [List.cons_append, List.cons.injEq] at h
    exact append_last_split_post_nil hS h.2

/-- No PVC-delete event ever appears in a sub-procedure trace. -/
theorem copyDispatch_no_deletePVC (env : CopyEnv) (opts : CopyOptions)
    (reg : CleanupState CleanupAct) (n : String) :
    Event.deletePVC n ∉ (copyDispatch env opts reg).trace := by
  intro hn
  have := copyDispatch_trace_pods env opts reg _ hn
  simp [volumeEvent] at this

/-- Every snapshot taken during the provisioning body shows the
destination-volume entry directly on top of the inherited registry with
only helper-pod entries above it. -/
theorem copyMain_snaps_shape (env : CopyEnv) (opts : CopyOptions)
    (reg : CleanupState CleanupAct) (src : PVC) :
    ∀ s ∈ (copyMain env opts reg src).snaps, ∃ pods : List String,
      s = reg.cleanups ++ CleanupAct.pvc (pvcName opts.dstNode opts.dstVolume)
            :: pods.map CleanupAct.pod := by
  by_cases hc : env.dstCreateOK = false
  · simp [copyMain, hc, earlyErr]
  · have hs : (copyMain env opts reg src).snaps
        = (Register reg (.pvc (pvcName opts.dstNode opts.dstVolume))).cleanups
          :: (copyDispatch env opts
            (Register reg (.pvc (pvcName opts.dstNode opts.dstVolume)))).snaps := by
      cases hsub : (copyDispatch env opts
          (Register reg (.pvc (pvcName opts.dstNode opts.dstVolume)))).err with
      | some e =>
        cases hWI : WasInterrupted (copyDispatch env opts
            (Register reg (.pvc (pvcName opts.dstNode opts.dstVolume)))).reg <;>
          simp [copyMain, hc, hsub, hWI]
      | none => simp [copyMain, hc, hsub]
    rw [hs]
    intro s hmem
    rcases List.mem_cons.mp hmem with hmem | hmem
    · exact ⟨[], by simp [hmem, Register]⟩
    · obtain ⟨pods, hp⟩ := copyDispatch_snaps_shape env opts _ s hmem
      exact ⟨pods, by simp [hp, Register]⟩

/-- In the provisioning body's trace, nothing follows a delete of the
destination volume — in particular no helper-pod delete does. -/
theorem copyMain_trace_order (env : CopyEnv) (opts : CopyOptions)
    (reg : CleanupState CleanupAct) (src : PVC) :
    ∀ pre post, (copyMain env opts reg src).trace
        = pre ++ Event.deletePVC (pvcName opts.dstNode opts.dstVolume) :: post →
      post = [] := by
  intro pre post h
  by_cases hc : env.dstCreateOK = false
  · rw [show (copyMain env opts reg src).trace = [] by simp [copyMain, hc, earlyErr]] at h
    exact absurd (mem_of_split h) (List.not_mem_nil _)
  · cases hsub : (copyDispatch env opts
        (Register reg (.pvc (pvcName opts.dstNode opts.dstVolume)))).err with
    | none =>
      have htr : (copyMain env opts reg src).trace
          = Event.createPVC (pvcName opts.dstNode opts.dstVolume) (GetInfo src).size
              (if (GetInfo src).isOSVolume = true ∧ (GetInfo src).image ≠ ""
                then (GetInfo src).image else "")
            :: (copyDispatch env opts
                (Register reg (.pvc (pvcName opts.dstNode opts.dstVolume)))).trace := by
        simp [copyMain, hc, hsub]
      rw [htr] at h
      have hmem := mem_of_split h
      rcases List.mem_cons.mp hmem with hmem | hmem
      · exact Event.noConfusion hmem
      · exact absurd hmem (copyDispatch_no_deletePVC _ _ _ _)
    | some e =>
      cases hWI : WasInterrupted (copyDispatch env opts
          (Register reg (.pvc (pvcName opts.dstNode opts.dstVolume)))).reg with
      | true =>
        have htr : (copyMain env opts reg src).trace
            = Event.createPVC (pvcName opts.dstNode opts.dstVolume) (GetInfo src).size
                (if (GetInfo src).isOSVolume = true ∧ (GetInfo src).image ≠ ""
                  then (GetInfo src).image else "")
              :: ((copyDispatch env opts
                  (Register reg (.pvc (pvcName opts.dstNode opts.dstVolume)))).trace
                ++ [Event.waitCleanup]) := by
          simp [copyMain, hc, hsub, hWI]
        rw [htr] at h
        have hmem := mem_of_split h
        rcases List.mem_cons.mp hmem with hmem | hmem
        · exact Event.noConfusion hmem
        · rcases List.mem_append.mp hmem with hmem | hmem
          · exact absurd hmem (copyDispatch_no_deletePVC _ _ _ _)
          · exact Event.noConfusion (List.mem_singleton.mp hmem)
      | false =>
        have htr : (copyMain env opts reg src).trace
            = Event.createPVC (pvcName opts.dstNode opts.dstVolume) (GetInfo src).size
                (if (GetInfo src).isOSVolume = true ∧ (GetInfo src).image ≠ ""
                  then (GetInfo src).image else "")
              :: ((copyDispatch env opts
                  (Register reg (.pvc (pvcName opts.dstNode opts.dstVolume)))).trace
                ++ [Event.deletePVC (pvcName opts.dstNode opts.dstVolume)]) := by
          simp [copyMain, hc, hsub, hWI]
        rw [htr] at h
        exact cons_append_last_split (fun hx => Event.noConfusion hx)
          (copyDispatch_no_deletePVC _ _ _ _) h

/-- **C5.** Throughout a copy, the destination volume's teardown entry sits
directly on the inherited registry with every helper-pod teardown stacked
above it: every registry snapshot taken while `Copy` holds the destination
registration has exactly that shape, and consequently an interrupt-triggered
`RunAll` at any such moment would invoke all helper-pod teardowns before the
destination-volume teardown (and before anything inherited). Moreover, on
every return path of `Copy`, no event at all — in particular no helper-pod
delete — follows a delete of the destination volume in the effect trace. -/
theorem copy_dst_teardown_below_pods (env : CopyEnv) (opts : CopyOptions)
    (reg : CleanupState CleanupAct) :
    (∀ s ∈ (Copy env opts reg).snaps, ∃ pods : List String,
        s = reg.cleanups
            ++ CleanupAct.pvc (pvcName opts.dstNode opts.dstVolume)
              :: pods.map CleanupAct.pod ∧
        ∀ b d : Bool, (RunAll (CleanupState.mk s b d)).1
          = (pods.map CleanupAct.pod).reverse
              ++ CleanupAct.pvc (pvcName opts.dstNode opts.dstVolume)
                :: reg.cleanups.reverse) ∧
    (∀ pre post, (Copy env opts reg).trace
        = pre ++ Event.deletePVC (pvcName opts.dstNode opts.dstVolume) :: post →
      ∀ p, Event.deletePod p ∉ post) := by
  constructor
  · intro s hmem
    have hshape : ∃ pods : List String,
        s = reg.cleanups ++ CleanupAct.pvc (pvcName opts.dstNode opts.dstVolume)
              :: pods.map CleanupAct.pod := by
      rcases Copy_cases env opts reg with ⟨e, hE⟩ | ⟨src, _, hM⟩
      · rw [hE] at hmem
        simp [earlyErr] at hmem
      · rw [hM] at hmem
        exact copyMain_snaps_shape env opts reg src s hmem
    obtain ⟨pods, hp⟩ := hshape
    refine ⟨pods, hp, fun b d => ?_⟩
    rw [hp]
    simp [RunAll]
  · intro pre post h p
    have hpost : post = [] := by
      rcases Copy_cases env opts reg with ⟨e, hE⟩ | ⟨src, _, hM⟩
      · rw [hE] at h
        exact absurd (mem_of_split h) (by simp [earlyErr])
      · rw [hM] at h
        exact copyMain_trace_order env opts reg src pre post h
    rw [hpost]
    exact List.not_mem_nil _

/-- Witness for C5: concrete cross-node copy whose streaming fails, over a
registry that already holds one unrelated entry. -/
theorem copy_dst_teardown_below_pods_witness :
    (∀ s ∈ (Copy
        (CopyEnv.mk true (some (PVC.mk "10Gi" "")) (some "") false true true
          (SameNodeEnv.mk true none)
          (CrossNodeEnv.mk true true none none (some "tar: broken pipe")))
        (CopyOptions.mk "ferrari" "data-a" "porsche" "data-b")
        (CleanupState.mk [CleanupAct.pod "other"] false false)).snaps,
      ∃ pods : List String,
        s = (CleanupState.mk [CleanupAct.pod "other"] false false).cleanups
            ++ CleanupAct.pvc (pvcName "porsche" "data-b")
              :: pods.map CleanupAct.pod ∧
        ∀ b d : Bool, (RunAll (CleanupState.mk s b d)).1
          = (pods.map CleanupAct.pod).reverse
              ++ CleanupAct.pvc (pvcName "porsche" "data-b")
                :: (CleanupState.mk [CleanupAct.pod "other"] false false).cleanups.reverse) ∧
    (∀ pre post, (Copy
        (CopyEnv.mk true (some (PVC.mk "10Gi" "")) (some "") false true true
          (SameNodeEnv.mk true none)
          (CrossNodeEnv.mk true true none none (some "tar: broken pipe")))
        (CopyOptions.mk "ferrari" "data-a" "porsche" "data-b")
        (CleanupState.mk [CleanupAct.pod "other"] false false)).trace
        = pre ++ Event.deletePVC (pvcName "porsche" "data-b") :: post →
      ∀ p, Event.deletePod p ∉ post) :=
  copy_dst_teardown_below_pods
    (CopyEnv.mk true (some (PVC.mk "10Gi" "")) (some "") false true true
      (SameNodeEnv.mk true none)
      (CrossNodeEnv.mk true true none none (some "tar: broken pipe")))
    (CopyOptions.mk "ferrari" "data-a" "porsche" "data-b")
    (CleanupState.mk [CleanupAct.pod "other"] false false)

/-! ## Create claims (C7) -/

/-- **C7 counterexample.** A plain (non-OS) volume creation that succeeds
end to end: `Create` returns without error, yet the cleanup registry holds
zero entries for the newly created storage object — not exactly one as
claimed.  (`Create` with `Image == ""` never registers anything.) -/
theorem create_no_entry_on_plain_volume :
    (Create (CreateEnv.mk true true true none)
      (CreateOptions.mk "ferrari" "data-a" "10Gi" "")
      (CleanupState.mk [] false false)).err = none ∧
    ((Create (CreateEnv.mk true true true none)
      (CreateOptions.mk "ferrari" "data-a" "10Gi" "")
      (CleanupState.mk [] false false)).reg.cleanups.count
        (CleanupAct.pvc (pvcName "ferrari" "data-a"))) = 0 := by
  constructor <;> rfl

/-- **C7 (amended).** For every invocation of `Create` that returns without
error while no interrupt is flagged, the cleanup registry is returned
exactly as it was given: every entry `Create` registered has been removed
again before return (for plain volumes none is ever registered).  The
entry for the storage object exists only transiently: on the OS-volume
path the first registry snapshot after the PVC creation is the inherited
registry with exactly the new object's teardown pushed. -/
theorem create_registry_restored (env : CreateEnv) (opts : CreateOptions)
    (reg : CleanupState CleanupAct)
    (hint : reg.interrupted = false)
    (hok : (Create env opts reg).err = none) :
    (Create env opts reg).reg = reg ∧
    (opts.image ≠ "" →
      (Create env opts reg).snaps.head?
        = some (reg.cleanups
            ++ [CleanupAct.pvc (pvcName opts.nodeName opts.volumeName)])) := by
  by_cases hacc : env.nodeAccessOK = false
  · simp [Create, hacc, earlyErr] at hok
  · by_cases hpvc : env.pvcCreateOK = false
    · simp [Create, hacc, hpvc, earlyErr] at hok
    · by_cases him : opts.image = ""
      · constructor
        · simp [Create, hacc, hpvc, him]
        · intro h
          exact absurd him h
      · by_cases hbind : env.binderPodCreateOK = false
        · simp [Create, hacc, hpvc, him, hbind] at hok
        · cases hwait : env.binderWaitErr with
          | some e =>
            have hWI : WasInterrupted
                (Register (Register reg
                    (.pvc (pvcName opts.nodeName opts.volumeName)))
                  (.pod ("bind-" ++ pvcName opts.nodeName opts.volumeName)))
                = false := by
              simp [WasInterrupted, Register, hint]
            simp [Create, hacc, hpvc, him, hbind, hwait, hWI] at hok
          | none =>
            constructor
            · simp [Create, hacc, hpvc, him, hbind, hwait,
                unregister_register_eq]
            · intro _
              simp [Create, hacc, hpvc, him, hbind, hwait, Register]

/-- Witness for the amended C7: a successful OS-volume creation. -/
theorem create_registry_restored_witness :
    (Create (CreateEnv.mk true true true none)
      (CreateOptions.mk "ferrari" "os-a" "20Gi" "ubuntu:22.04")
      (CleanupState.mk [] false false)).reg = CleanupState.mk [] false false ∧
    ((CreateOptions.mk "ferrari" "os-a" "20Gi" "ubuntu:22.04").image ≠ "" →
      (Create (CreateEnv.mk true true true none)
        (CreateOptions.mk "ferrari" "os-a" "20Gi" "ubuntu:22.04")
        (CleanupState.mk [] false false)).snaps.head?
        = some ((CleanupState.mk [] false false).cleanups
            ++ [CleanupAct.pvc (pvcName "ferrari" "os-a")])) :=
  create_registry_restored (CreateEnv.mk true true true none)
    (CreateOptions.mk "ferrari" "os-a" "20Gi" "ubuntu:22.04")
    (CleanupState.mk [] false false) rfl (by decide)

end SgsCli
